import Mathlib

/-!
Verification of the `NumericDiff` scorer from `autoevals`
(`src/py/autoevals/number.py`), shallowly embedded over `ℚ`
(Python's arithmetic on the inputs is modelled exactly).
-/

namespace Autoevals

/-- Modelled from the spec: the `Score` record produced by a scorer, from
the `Score` class of the base module (`.base`, not among the given
sources): it carries at minimum a `name` (string identifier of the
scorer) and a numeric `score`. -/
structure Score where
  name : String
  score : ℚ
deriving Repr, DecidableEq

/-- Modelled from the spec: the base `Scorer` class (not among the given
sources) supplies a name-resolution method `_name()` used to label the
output record, derived from the scorer's registered identifier; modelled
as the fixed name of this scorer. -/
def scorerName : String := "NumericDiff"

/-- Errors raised by `_run_eval_sync`; the code raises Python's
`ValueError` with a message. -/
inductive EvalError where
  | valueError (msg : String)
deriving Repr, DecidableEq

/-- The subexpression `max(abs(expected), abs(output))` of
`NumericDiff._run_eval_sync` (number.py line 17): the denominator of the
relative-difference formula. -/
def numericDiffDenom (output expected : ℚ) : ℚ :=
  max |expected| |output|

/-- The score computed by `NumericDiff._run_eval_sync` once `expected` is
present (number.py lines 14-17): `1` when `expected == 0 and output == 0`,
otherwise `1 - (abs(expected - output) / max(abs(expected), abs(output)))`. -/
def numericDiffScore (output expected : ℚ) : ℚ :=
  if expected = 0 ∧ output = 0 then 1
  else 1 - (|expected - output| / numericDiffDenom output expected)

/-- `NumericDiff._run_eval_sync(self, output, expected=None, **kwargs)`
(number.py lines 10-18): raises `ValueError` when `expected` is `None`,
otherwise returns `Score(name=self._name(), score=score)`. The extra
keyword arguments `**kwargs` are accepted and ignored; they are modelled
as a list of string key/value pairs. -/
def run_eval_sync (output : ℚ) (expected : Option ℚ)
    (kwargs : List (String × String)) : Except EvalError Score :=
  match expected with
  | none => .error (.valueError "LevenshteinScorer requires an expected value")
  | some e => .ok { name := scorerName, score := numericDiffScore output e }

theorem run_eval_sync_some (output e : ℚ) (kwargs : List (String × String)) :
    run_eval_sync output (some e) kwargs =
      .ok { name := scorerName, score := numericDiffScore output e } := rfl

theorem denom_pos_of_not_both_zero (output e : ℚ) (h : ¬(e = 0 ∧ output = 0)) :
    0 < numericDiffDenom output e := by
  unfold numericDiffDenom
  rcases not_and_or.mp h with he | ho
  · exact lt_max_of_lt_left (abs_pos.mpr he)
  · exact lt_max_of_lt_right (abs_pos.mpr ho)

theorem abs_sub_of_same_sign (a b : ℚ) (hs : 0 < a * b) :
    |b - a| = |(|b|) - (|a|)| := by
  rcases mul_pos_iff.mp hs with ⟨hpa, hpb⟩ | ⟨hna, hnb⟩
  · rw [abs_of_pos hpa, abs_of_pos hpb]
  · rw [abs_of_neg hna, abs_of_neg hnb, abs_sub_comm]
    ring_nf

theorem one_sub_relDiff_pos (x y : ℚ) (hx : 0 < x) (hy : 0 < y) :
    1 - |y - x| / max y x = min x y / max x y := by
  rcases le_total x y with h | h
  · rw [abs_of_nonneg (by linarith), max_eq_left h, min_eq_left h, max_eq_right h]
    field_simp
  · rw [abs_of_nonpos (by linarith), max_eq_right h, min_eq_right h, max_eq_left h]
    field_simp

theorem numericDiffScore_self (x : ℚ) : numericDiffScore x x = 1 := by
  by_cases hx : x = 0
  · subst hx; simp [numericDiffScore]
  · simp [numericDiffScore, numericDiffDenom, hx]

theorem numericDiffScore_expected_zero (o : ℚ) (ho : o ≠ 0) :
    numericDiffScore o 0 = 0 := by
  rw [numericDiffScore, if_neg (fun hc => ho hc.2), numericDiffDenom, zero_sub,
    abs_neg, abs_zero, max_eq_right (abs_nonneg o), div_self (abs_ne_zero.mpr ho),
    sub_self]

theorem numericDiffScore_output_zero (e : ℚ) (he : e ≠ 0) :
    numericDiffScore 0 e = 0 := by
  rw [numericDiffScore, if_neg (fun hc => he hc.1), numericDiffDenom, sub_zero,
    abs_zero, max_eq_left (abs_nonneg e), div_self (abs_ne_zero.mpr he), sub_self]

theorem numericDiffScore_opp (x : ℚ) (hx : x ≠ 0) :
    numericDiffScore (-x) x = -1 := by
  rw [numericDiffScore, if_neg (fun hc => hx hc.1), numericDiffDenom, abs_neg,
    max_self, sub_neg_eq_add, ← two_mul, abs_mul, abs_two, mul_div_assoc,
    div_self (abs_ne_zero.mpr hx), mul_one]
  norm_num

theorem numericDiffScore_comm (o e : ℚ) :
    numericDiffScore o e = numericDiffScore e o := by
  by_cases h : e = 0 ∧ o = 0
  · rw [numericDiffScore, if_pos h, numericDiffScore, if_pos ⟨h.2, h.1⟩]
  · rw [numericDiffScore, if_neg h, numericDiffScore,
      if_neg (fun hc => h ⟨hc.2, hc.1⟩), numericDiffDenom, numericDiffDenom,
      abs_sub_comm, max_comm]

theorem numericDiffScore_le_one (o e : ℚ) : numericDiffScore o e ≤ 1 := by
  simp only [numericDiffScore, numericDiffDenom]
  split
  · exact le_refl 1
  · exact sub_le_self 1 (div_nonneg (abs_nonneg _)
      ((abs_nonneg e).trans (le_max_left _ _)))

theorem numericDiffScore_same_sign (a b : ℚ) (hs : 0 < a * b) :
    numericDiffScore a b = min (|a|) (|b|) / max (|a|) (|b|) := by
  have ha : a ≠ 0 := fun h => by subst h; simp at hs
  have hb : b ≠ 0 := fun h => by subst h; simp at hs
  rw [numericDiffScore, if_neg (fun hc => ha hc.2), numericDiffDenom,
    abs_sub_of_same_sign a b hs]
  exact one_sub_relDiff_pos (|a|) (|b|) (abs_pos.mpr ha) (abs_pos.mpr hb)

/-- C1: for every real output and every present expected value, `_run_eval_sync`
returns score 1 when both expected and output are zero, and otherwise returns
score `1 - abs(expected - output) / max(abs(expected), abs(output))`; in
particular output = 10, expected = 5 yields score 0.5. -/
theorem numericDiff_formula (output e : ℚ) (kwargs : List (String × String)) :
    (e = 0 ∧ output = 0 →
      run_eval_sync output (some e) kwargs =
        .ok { name := scorerName, score := 1 }) ∧
    (¬(e = 0 ∧ output = 0) →
      run_eval_sync output (some e) kwargs =
        .ok { name := scorerName,
              score := 1 - |e - output| / max (|e|) (|output|) }) ∧
    run_eval_sync 10 (some 5) [] = .ok { name := scorerName, score := 1/2 } := by
  refine ⟨fun h => ?_, fun h => ?_, ?_⟩
  · rw [run_eval_sync_some, numericDiffScore, if_pos h]
  · rw [run_eval_sync_some, numericDiffScore, if_neg h, numericDiffDenom]
  · rw [run_eval_sync_some]
    norm_num [numericDiffScore, numericDiffDenom]

theorem numericDiff_formula_witness :
    run_eval_sync 10 (some 5) [] =
      .ok { name := scorerName,
            score := 1 - |(5:ℚ) - 10| / max (|(5:ℚ)|) (|(10:ℚ)|) } :=
  (numericDiff_formula 10 5 []).2.1 (by norm_num)

/-- C2: for every output value, when expected is absent (`none`) the evaluation
fails with the missing-required-input error and returns no `Score` record. -/
theorem numericDiff_missing_expected (output : ℚ) (kwargs : List (String × String)) :
    run_eval_sync output none kwargs =
      .error (.valueError "LevenshteinScorer requires an expected value") := rfl

/-- C3: for every rational x, evaluating with output = x and expected = x
returns score 1 exactly; in particular output = 0, expected = 0 gives score 1
with no division-by-zero fault. -/
theorem numericDiff_self (x : ℚ) (kwargs : List (String × String)) :
    run_eval_sync x (some x) kwargs = .ok { name := scorerName, score := 1 } := by
  rw [run_eval_sync_some, numericDiffScore_self]

/-- C4: whenever exactly one of output and expected is zero and the other is
nonzero, `_run_eval_sync` returns score 0. -/
theorem numericDiff_one_zero (output e : ℚ) (kwargs : List (String × String))
    (h : (e = 0 ∧ output ≠ 0) ∨ (e ≠ 0 ∧ output = 0)) :
    run_eval_sync output (some e) kwargs =
      .ok { name := scorerName, score := 0 } := by
  rcases h with ⟨he, ho⟩ | ⟨he, ho⟩
  · subst he; rw [run_eval_sync_some, numericDiffScore_expected_zero output ho]
  · subst ho; rw [run_eval_sync_some, numericDiffScore_output_zero e he]

theorem numericDiff_one_zero_witness :
    run_eval_sync 5 (some 0) [] = .ok { name := scorerName, score := 0 } ∧
    run_eval_sync 0 (some 5) [] = .ok { name := scorerName, score := 0 } :=
  ⟨numericDiff_one_zero 5 0 [] (Or.inl ⟨rfl, by norm_num⟩),
   numericDiff_one_zero 0 5 [] (Or.inr ⟨by norm_num, rfl⟩)⟩

/-- C5: for every nonzero rational x, evaluating with output = -x and
expected = x returns score -1, a value outside [0,1]. -/
theorem numericDiff_opposite (x : ℚ) (kwargs : List (String × String))
    (hx : x ≠ 0) :
    run_eval_sync (-x) (some x) kwargs =
      .ok { name := scorerName, score := -1 } := by
  rw [run_eval_sync_some, numericDiffScore_opp x hx]

theorem numericDiff_opposite_witness :
    run_eval_sync (-5) (some 5) [] = .ok { name := scorerName, score := -1 } :=
  numericDiff_opposite 5 [] (by norm_num)

/-- C6: for all nonzero rationals a and b of the same sign, swapping output
and expected leaves the evaluation result unchanged. -/
theorem numericDiff_symm (a b : ℚ) (kwargs : List (String × String))
    (ha : a ≠ 0) (hb : b ≠ 0) (hs : 0 < a * b) :
    run_eval_sync a (some b) kwargs = run_eval_sync b (some a) kwargs := by
  rw [run_eval_sync_some, run_eval_sync_some, numericDiffScore_comm]

theorem numericDiff_symm_witness :
    run_eval_sync 1 (some 2) [] = run_eval_sync 2 (some 1) [] :=
  numericDiff_symm 1 2 [] (by norm_num) (by norm_num) (by norm_num)

/-- C7: for every fixed pair of numeric inputs, the evaluation result is the
same for any two choices of the extra keyword configuration arguments. -/
theorem numericDiff_kwargs_irrelevant (output e : ℚ)
    (k1 k2 : List (String × String)) :
    run_eval_sync output (some e) k1 = run_eval_sync output (some e) k2 := rfl

/-- C8: for every real output and present expected value, the returned score
is at most 1; the score can fall below 0 for mixed-sign inputs (as at
output = -5, expected = 5) but can never exceed 1. -/
theorem numericDiff_le_one (output e : ℚ) (kwargs : List (String × String))
    (s : Score) (h : run_eval_sync output (some e) kwargs = .ok s) :
    s.score ≤ 1 ∧ numericDiffScore (-5) 5 < 0 := by
  refine ⟨?_, by norm_num [numericDiffScore, numericDiffDenom]⟩
  rw [run_eval_sync_some] at h
  obtain rfl := (Except.ok.inj h).symm
  exact numericDiffScore_le_one output e

theorem numericDiff_le_one_witness :
    (Score.mk scorerName (numericDiffScore 10 5)).score ≤ 1 ∧
      numericDiffScore (-5) 5 < 0 :=
  numericDiff_le_one 10 5 [] (Score.mk scorerName (numericDiffScore 10 5)) rfl

/-- C9: whenever the formula branch is taken (not both inputs zero), the
denominator `max(abs(expected), abs(output))` is strictly positive, so the
division in `_run_eval_sync` is well-defined. -/
theorem numericDiff_denom_pos (output e : ℚ) (h : ¬(e = 0 ∧ output = 0)) :
    0 < numericDiffDenom output e ∧
      numericDiffScore output e = 1 - |e - output| / numericDiffDenom output e := by
  refine ⟨denom_pos_of_not_both_zero output e h, ?_⟩
  rw [numericDiffScore, if_neg h]

theorem numericDiff_denom_pos_witness :
    0 < numericDiffDenom 5 0 ∧
      numericDiffScore 5 0 = 1 - |(0:ℚ) - 5| / numericDiffDenom 5 0 :=
  numericDiff_denom_pos 5 0 (by norm_num)

/-- C10: for all nonzero rationals a and b of the same sign, the returned
score equals `min(abs(a), abs(b)) / max(abs(a), abs(b))`, which lies in
[0,1]. -/
theorem numericDiff_same_sign (a b : ℚ) (kwargs : List (String × String))
    (ha : a ≠ 0) (hb : b ≠ 0) (hs : 0 < a * b) :
    run_eval_sync a (some b) kwargs =
      .ok { name := scorerName, score := min (|a|) (|b|) / max (|a|) (|b|) } ∧
    0 ≤ min (|a|) (|b|) / max (|a|) (|b|) ∧
      min (|a|) (|b|) / max (|a|) (|b|) ≤ 1 := by
  have hmax : (0:ℚ) ≤ max (|a|) (|b|) := (abs_nonneg a).trans (le_max_left _ _)
  refine ⟨?_, div_nonneg (le_min (abs_nonneg a) (abs_nonneg b)) hmax,
    div_le_one_of_le₀ min_le_max hmax⟩
  rw [run_eval_sync_some, numericDiffScore_same_sign a b hs]

theorem numericDiff_same_sign_witness :
    (run_eval_sync 1 (some 2) [] =
      .ok { name := scorerName,
            score := min (|(1:ℚ)|) (|(2:ℚ)|) / max (|(1:ℚ)|) (|(2:ℚ)|) }) ∧
    0 ≤ min (|(1:ℚ)|) (|(2:ℚ)|) / max (|(1:ℚ)|) (|(2:ℚ)|) ∧
      min (|(1:ℚ)|) (|(2:ℚ)|) / max (|(1:ℚ)|) (|(2:ℚ)|) ≤ 1 :=
  numericDiff_same_sign 1 2 [] (by norm_num) (by norm_num) (by norm_num)

end Autoevals
